import Mathlib

/-!
Verification of the terra-billing-alert pipeline (src/terra_billing_alert.py)
against its natural-language specification.

Shallow embedding conventions:
- UTC timestamps are rationals (seconds since an arbitrary epoch); the current
  time is an explicit parameter now_utc.
- Monetary cost and the configuration numbers are rationals.
- Python code that can raise is embedded as Except Unit (the error payload is
  irrelevant to the claims); a raised TypeError or re-raised exception is
  Except.error.
- The BigQuery alert-log table is a list of rows; the SQL window predicate of
  get_alert_log_table (line 137) is the function windowFilter.
- The value get_alert_log_table hands to main is not a list but the one-shot
  iterator produced by df.itertuples (line 141). Each duplicate scan inside
  check_workflow consumes it, so later records only see the unconsumed
  remainder. The iterator is modeled as the list of its remaining rows,
  threaded through the filtering loop by the consuming functions below.
-/

/-- The Workflow namedtuple (lines 20-25). The Python field named namespace is
renamed namespace_ because namespace is a Lean keyword. -/
structure Workflow where
  namespace_ : String
  workspace : String
  submission_id : String
  workflow_id : String
  submission_name : String
  submitter : String
  cost : ℚ
  submit_time : Option ℚ
  start_time : Option ℚ
  end_time : Option ℚ
deriving DecidableEq

/-- Module-level dry-run flag (line 29), False in the committed source. -/
def DRY_RUN : Bool := false

/-- Module-level environment flag (line 13), False in the committed source. -/
def ON_GOOGLE_CLOUD_FUNCTION : Bool := false

/-- check_workflow (lines 178-191). Tests, in source order: cost threshold
(workflow.cost >= cost_limit_per_workflow, written here with the arguments of
the inequality flipped), monitoring window on submit_time, then a scan of the
alert-log window for an entry with the same workflow_id and the same cost.
When workflow.submit_time is None, line 183 subtracts None from a datetime,
which raises TypeError: that is Except.error. -/
def check_workflow (workflow : Workflow) (alert_log_table : List Workflow)
    (cost_limit_per_workflow monitor_interval_hour : ℚ) (now_utc : ℚ) :
    Except Unit Bool :=
  if cost_limit_per_workflow ≤ workflow.cost then
    match workflow.submit_time with
    | none => Except.error ()
    | some submit_time =>
      if (now_utc - submit_time) / 3600 < monitor_interval_hour then
        if alert_log_table.any (fun workflow_on_table =>
            decide (workflow.workflow_id = workflow_on_table.workflow_id ∧
              workflow.cost = workflow_on_table.cost)) then
          Except.ok false
        else
          Except.ok true
      else
        Except.ok false
  else
    Except.ok false

/-- One pass of the duplicate scan at lines 186-189 over the one-shot
itertuples iterator: the for loop pulls entries until one matches on both
workflow_id and cost (returning False from check_workflow) or the iterator is
exhausted. Returns whether a match was found together with the unconsumed
remainder of the iterator; the matching entry itself has been consumed. -/
def scan_duplicate (workflow : Workflow) : List Workflow → Bool × List Workflow
  | [] => (false, [])
  | workflow_on_table :: rest =>
    if workflow.workflow_id = workflow_on_table.workflow_id ∧
        workflow.cost = workflow_on_table.cost then
      (true, rest)
    else
      scan_duplicate workflow rest

/-- check_workflow as main actually calls it (lines 222 and 226-228): the
alert_log_table argument is the single one-shot iterator returned by
df.itertuples (line 141), of which this call sees only the unconsumed
remainder; the duplicate scan consumes it further. Returns the decision
together with the remainder left for the next record. The threshold and
window tests do not touch the iterator. -/
def check_workflow_consuming (workflow : Workflow) (alert_log_table : List Workflow)
    (cost_limit_per_workflow monitor_interval_hour : ℚ) (now_utc : ℚ) :
    Except Unit (Bool × List Workflow) :=
  if cost_limit_per_workflow ≤ workflow.cost then
    match workflow.submit_time with
    | none => Except.error ()
    | some submit_time =>
      if (now_utc - submit_time) / 3600 < monitor_interval_hour then
        match scan_duplicate workflow alert_log_table with
        | (dup, rest) => Except.ok (!dup, rest)
      else
        Except.ok (false, alert_log_table)
  else
    Except.ok (false, alert_log_table)

/-- The filtering loop of main (lines 224-229) with the alert log threaded as
the one-shot iterator state: append each collected workflow for which
check_workflow returns True, where every call scans only what the earlier
records left unconsumed; an exception from check_workflow propagates and
aborts the run. Returns the alert list and the final iterator remainder. -/
def collect_alerts_consuming (ws log : List Workflow)
    (cost_limit_per_workflow monitor_interval_hour now_utc : ℚ) :
    Except Unit (List Workflow × List Workflow) :=
  match ws with
  | [] => Except.ok ([], log)
  | w :: rest =>
    match check_workflow_consuming w log cost_limit_per_workflow
        monitor_interval_hour now_utc with
    | Except.error e => Except.error e
    | Except.ok (b, log2) =>
      match collect_alerts_consuming rest log2 cost_limit_per_workflow
          monitor_interval_hour now_utc with
      | Except.error e => Except.error e
      | Except.ok (tail, log3) =>
        Except.ok ((if b then w :: tail else tail), log3)

/-- The SQL predicate of get_alert_log_table (lines 134-137): keep rows with
submit_time >= now_utc - monitor_interval_hour (a timedelta of that many
hours, hence times 3600 seconds); a SQL NULL submit_time never satisfies the
comparison. -/
def windowFilter (table : List Workflow) (monitor_interval_hour now_utc : ℚ) :
    List Workflow :=
  table.filter fun e =>
    match e.submit_time with
    | some t => decide (now_utc - monitor_interval_hour * 3600 ≤ t)
    | none => false

/-- Observable external effects of the Notifier and Logger stages. -/
inductive Event where
  | printedSubject (max_cost : ℚ)
  | printedWorkflows (workflows : List Workflow)
  | printedMsg (msg : String)
  | logWrite (rows : List Workflow)
deriving DecidableEq

/-- update_alert_log_table (lines 150-158): returns the emitted write events
and the resulting content of the external table. On an empty input it returns
immediately; otherwise, unless DRY_RUN, df.to_gbq with if_exists set to
replace rewrites the table so that its content becomes exactly the rows of the
DataFrame, which is built from the new workflows alone (line 155). -/
def update_alert_log_table (workflows table : List Workflow) :
    List Event × List Workflow :=
  if workflows = [] then ([], table)
  else if DRY_RUN then ([], table)
  else ([Event.logWrite workflows], workflows)

/-- One whole run of main over given source data and a given external table
(lines 221-232, numeric configuration assumed): read the windowed log rows as
a fresh one-shot iterator, filter the source through the consuming loop, and
persist the alerts with update_alert_log_table. Returns the alerts of the run
and the resulting table content. -/
def run_pipeline (source table : List Workflow)
    (cost_limit_per_workflow monitor_interval_hour now_utc : ℚ) :
    Except Unit (List Workflow × List Workflow) :=
  match collect_alerts_consuming source
      (windowFilter table monitor_interval_hour now_utc)
      cost_limit_per_workflow monitor_interval_hour now_utc with
  | Except.error e => Except.error e
  | Except.ok (alerts, _) =>
    Except.ok (alerts, (update_alert_log_table alerts table).2)

/-- The cost of max(workflows, key=lambda k: k.cost) (line 165); only called on
a non-empty list. -/
def maxCost (workflows : List Workflow) : ℚ :=
  match workflows with
  | [] => 0
  | w :: rest => rest.foldl (fun acc x => max acc x.cost) w.cost

/-- send_email (lines 32-49). On Google Cloud Function the construction of the
Mail object at line 37 passes html_content=html_content where the right-hand
name is undefined (the parameter is html_contents), so the call raises
NameError before any send; the status-code handling of lines 43-47 (print on
success and on failure, never raise) is therefore unreachable. Off Google
Cloud Function the function only prints that SendGrid is unavailable. -/
def send_email (sendStatus : Nat) : Except Unit (List Event) :=
  if ON_GOOGLE_CLOUD_FUNCTION then
    match (Except.error () : Except Unit Unit) with
    | Except.error e => Except.error e
    | Except.ok _ =>
      if sendStatus = 200 then Except.ok [Event.printedMsg "Sent email successfully."]
      else Except.ok [Event.printedMsg "Failed to send email."]
  else
    Except.ok [Event.printedMsg "SendGrid is not available."]

/-- send_alert (lines 161-175): returns the events emitted by the Notifier.
Empty input returns immediately; otherwise the subject (with the maximum cost)
and the workflows are printed, and unless DRY_RUN the email is sent. The
parameter sendStatus is the status code the SendGrid client would report. -/
def send_alert (workflows : List Workflow) (sendStatus : Nat) :
    Except Unit (List Event) :=
  if workflows = [] then Except.ok []
  else
    let headerEvents := [Event.printedSubject (maxCost workflows),
      Event.printedWorkflows workflows]
    if DRY_RUN then Except.ok headerEvents
    else
      match send_email sendStatus with
      | Except.error e => Except.error e
      | Except.ok emailEvents => Except.ok (headerEvents ++ emailEvents)

/-- The tail of main (lines 231-232): send_alert runs first, then
update_alert_log_table; an exception from send_alert would propagate before
the log update. Returns the emitted events in order together with the
resulting table content. -/
def notifier_logger_stage (alerts table : List Workflow) (sendStatus : Nat) :
    Except Unit (List Event × List Workflow) :=
  match send_alert alerts sendStatus with
  | Except.error e => Except.error e
  | Except.ok notifyEvents =>
    let logResult := update_alert_log_table alerts table
    Except.ok (notifyEvents ++ logResult.1, logResult.2)

/-- A Python value as far as the configuration comparisons are concerned:
either a number or a string. -/
inductive PyVal where
  | num (q : ℚ)
  | str (s : String)
deriving DecidableEq

/-- Python comparison a >= b. Between two numbers it is the numeric
comparison; between a number and a string (the only other combination reached
in the pipeline) Python 3 raises TypeError. -/
def pyGE : PyVal → PyVal → Except Unit Bool
  | PyVal.num a, PyVal.num b => Except.ok (decide (b ≤ a))
  | _, _ => Except.error ()

/-- Python comparison a < b, with the same typing behavior as pyGE. -/
def pyLT : PyVal → PyVal → Except Unit Bool
  | PyVal.num a, PyVal.num b => Except.ok (decide (a < b))
  | _, _ => Except.error ()

/-- Line 206 of main: cost_limit_per_workflow is read from os.environ with no
conversion, so it is a string. -/
def main_cost_limit_per_workflow (env : String → String) : PyVal :=
  PyVal.str (env "COST_LIMIT_PER_WORKFLOW")

/-- Line 208 of main: monitor_interval_hour is read from os.environ with no
conversion, so it is a string. -/
def main_monitor_interval_hour (env : String → String) : PyVal :=
  PyVal.str (env "MONITOR_INTERVAL_HOUR")

/-- check_workflow with the dynamic typing of its two configuration arguments
made explicit: the comparisons of lines 181 and 184 use Python comparison
semantics on whatever values main passed in. -/
def check_workflow_py (workflow : Workflow) (alert_log_table : List Workflow)
    (cost_limit_per_workflow monitor_interval_hour : PyVal) (now_utc : ℚ) :
    Except Unit Bool :=
  match pyGE (PyVal.num workflow.cost) cost_limit_per_workflow with
  | Except.error e => Except.error e
  | Except.ok passes =>
    if passes then
      match workflow.submit_time with
      | none => Except.error ()
      | some submit_time =>
        match pyLT (PyVal.num ((now_utc - submit_time) / 3600)) monitor_interval_hour with
        | Except.error e => Except.error e
        | Except.ok inWindow =>
          if inWindow then
            if alert_log_table.any (fun workflow_on_table =>
                decide (workflow.workflow_id = workflow_on_table.workflow_id ∧
                  workflow.cost = workflow_on_table.cost)) then
              Except.ok false
            else
              Except.ok true
          else
            Except.ok false
    else
      Except.ok false

/-- A response of the external workflow source: HTTP status and parsed JSON
body (only the timestamp fields matter to the claims, so the body is a list of
key-timestamp pairs). -/
structure ApiResponse where
  status_code : Nat
  json : List (String × ℚ)

/-- get_workflow_metadata (lines 63-68): the JSON body on status 200;
otherwise the error is printed and the function implicitly returns None. -/
def get_workflow_metadata (r : ApiResponse) : Option (List (String × ℚ)) :=
  if r.status_code = 200 then some r.json else none

/-- get_utc_datetime_from_dict (lines 52-60): the parsed timestamp under key
if the key is present, None if absent. When d itself is None, the membership
test key in d at line 56 raises TypeError (NoneType is not iterable): that is
Except.error. -/
def get_utc_datetime_from_dict (d : Option (List (String × ℚ))) (key : String) :
    Except Unit (Option ℚ) :=
  match d with
  | none => Except.error ()
  | some dict =>
    match dict.lookup key with
    | some v => Except.ok (some v)
    | none => Except.ok none

/-- The per-workflow metadata step of get_all_workflows (lines 110-114):
fetch the metadata, then read the start and end timestamps from it. -/
def collector_workflow_times (r : ApiResponse) :
    Except Unit (Option ℚ × Option ℚ) :=
  match get_utc_datetime_from_dict (get_workflow_metadata r) "start" with
  | Except.error e => Except.error e
  | Except.ok start_time =>
    match get_utc_datetime_from_dict (get_workflow_metadata r) "end" with
    | Except.error e => Except.error e
    | Except.ok end_time => Except.ok (start_time, end_time)

/-- Whether needle is a prefix of hay, on character lists. -/
def listStartsWith : List Char → List Char → Bool
  | [], _ => true
  | _ :: _, [] => false
  | a :: as, b :: bs => a == b && listStartsWith as bs

/-- Whether needle occurs as a contiguous substring of hay. -/
def listHasSub : List Char → List Char → Bool
  | needle, [] => listStartsWith needle []
  | needle, c :: rest => listStartsWith needle (c :: rest) || listHasSub needle rest

/-- The Python substring test needle in hay on strings. -/
def str_has_sub (needle hay : String) : Bool :=
  listHasSub needle.toList hay.toList

/-- The exception handling of get_alert_log_table (lines 136-147), applied to
the outcome of the windowed read (pd.read_gbq of line 138): a successful read
returns its rows; a GenericGBQException whose text contains Reason: 404 is
swallowed and the function returns an empty list; any other such exception is
re-raised. -/
def get_alert_log_table (readResult : Except String (List Workflow)) :
    Except String (List Workflow) :=
  match readResult with
  | Except.ok df => Except.ok df
  | Except.error err =>
    if str_has_sub "Reason: 404" err then Except.ok []
    else Except.error err

/-- A concrete workflow record for witnesses. -/
def mkWorkflow (id : String) (cost : ℚ) (st : Option ℚ) : Workflow :=
  { namespace_ := "ns", workspace := "ws", submission_id := "sub-1",
    workflow_id := id, submission_name := "method", submitter := "user",
    cost := cost, submit_time := st, start_time := none, end_time := none }

/-- Concrete record: cost 15, submitted at time 0. -/
def wA : Workflow := mkWorkflow "wf-a" 15 (some 0)

/-- Concrete record: cost 20, submitted at time 0. -/
def wB : Workflow := mkWorkflow "wf-b" 20 (some 0)

/-- Concrete record with a null submit_time and cost 5. -/
def wNull : Workflow := mkWorkflow "wf-n" 5 none

/-- Concrete record: cost 30, submitted at time 0. -/
def wZ : Workflow := mkWorkflow "wf-z" 30 (some 0)

/-- Helper: on a record with a known submit_time, check_workflow never raises
and its boolean result is the conjunction of the three tests. -/
theorem check_workflow_some_eq (w : Workflow) (log : List Workflow)
    (lim win now t : ℚ) (hst : w.submit_time = some t) :
    check_workflow w log lim win now =
      Except.ok (decide (lim ≤ w.cost) && (decide ((now - t) / 3600 < win) &&
        !(log.any fun e => decide (w.workflow_id = e.workflow_id ∧ w.cost = e.cost)))) := by
  unfold check_workflow
  rw [hst]
  show (if lim ≤ w.cost then
      (if (now - t) / 3600 < win then
        (if log.any (fun workflow_on_table =>
            decide (w.workflow_id = workflow_on_table.workflow_id ∧
              w.cost = workflow_on_table.cost)) then
          Except.ok false
        else Except.ok true)
      else Except.ok false)
    else Except.ok false) = _
  by_cases h1 : lim ≤ w.cost
  · rw [if_pos h1]
    by_cases h2 : (now - t) / 3600 < win
    · rw [if_pos h2]
      by_cases h3 : (log.any fun e =>
          decide (w.workflow_id = e.workflow_id ∧ w.cost = e.cost)) = true
      · rw [if_pos h3, h3]
        simp [h1, h2]
      · rw [if_neg h3]
        rw [Bool.not_eq_true] at h3
        rw [h3]
        simp [h1, h2]
    · rw [if_neg h2]
      simp [h1, h2]
  · rw [if_neg h1]
    simp [h1]

/-- C1: with a non-null submit_time and numeric threshold and window
parameters, check_workflow returns true exactly when the cost meets the
threshold, the age in hours is strictly below the window, and no alert-log
entry carries both the same workflow_id and the same cost; in particular a
record whose cost differs from every logged entry with its workflow_id is
alerted again. -/
theorem check_workflow_alerts_iff (w : Workflow) (log : List Workflow)
    (lim win now t : ℚ) (hst : w.submit_time = some t) :
    check_workflow w log lim win now = Except.ok true ↔
      (lim ≤ w.cost ∧ (now - t) / 3600 < win ∧
        ∀ e ∈ log, ¬(e.workflow_id = w.workflow_id ∧ e.cost = w.cost)) := by
  rw [check_workflow_some_eq w log lim win now t hst]
  simp only [Except.ok.injEq, Bool.and_eq_true, decide_eq_true_eq,
    Bool.not_eq_true', List.any_eq_false, decide_eq_false_iff_not]
  constructor
  · rintro ⟨h1, h2, h3⟩
    exact ⟨h1, h2, fun e he hc => h3 e he ⟨hc.1.symm, hc.2.symm⟩⟩
  · rintro ⟨h1, h2, h3⟩
    exact ⟨h1, h2, fun e he hc => h3 e he ⟨hc.1.symm, hc.2.symm⟩⟩

/-- C1 witness: a concrete record (cost 15, submitted at time 0, threshold 10,
window 24 hours, one hour after submission, empty log) is alerted. -/
theorem check_workflow_alerts_iff_witness :
    check_workflow wA [] 10 24 3600 = Except.ok true :=
  (check_workflow_alerts_iff wA [] 10 24 3600 0 rfl).mpr
    ⟨by norm_num [wA, mkWorkflow], by norm_num,
      fun e he => absurd he (List.not_mem_nil e)⟩

/-- C2: the claim that the Dedup Filter result set is order-independent fails
on the code. The alert log supplied to the loop is the one-shot itertuples
iterator, which the duplicate scans of successive check_workflow calls
consume, so later records only scan the unconsumed remainder. With log rows
wA, wB and the collected records wA, wB (threshold 10, window 24 hours, one
hour after submission), processing in order wA, wB alerts nothing, while the
swapped order wB, wA alerts wA: the same input set yields two different alert
sets. -/
theorem dedup_filter_order_dependent :
    collect_alerts_consuming [wA, wB] [wA, wB] 10 24 3600 =
        Except.ok ([], []) ∧
      collect_alerts_consuming [wB, wA] [wA, wB] 10 24 3600 =
        Except.ok ([wA], []) := by
  constructor
  · norm_num [collect_alerts_consuming, check_workflow_consuming,
      scan_duplicate, wA, wB, mkWorkflow]
  · norm_num [collect_alerts_consuming, check_workflow_consuming,
      scan_duplicate, wA, wB, mkWorkflow]

/-- C3: the claim that the rewritten table keeps the retained in-window
entries fails on the code. The record wA is a retained entry of the log and
inside the monitoring window, the new alert set is the single record wB, and
after update_alert_log_table the table content is exactly the new rows: wA
has been dropped by the rewrite. -/
theorem update_alert_log_table_drops_retained :
    windowFilter [wA] 24 3600 = [wA] ∧
      (update_alert_log_table [wB] [wA]).2 = [wB] ∧
      wA ∉ (update_alert_log_table [wB] [wA]).2 := by
  refine ⟨?_, ?_, ?_⟩
  · norm_num [windowFilter, wA, mkWorkflow]
  · norm_num [update_alert_log_table, DRY_RUN]
  · norm_num [update_alert_log_table, DRY_RUN, wA, wB, mkWorkflow]

/-- C4: the claim of re-run safety fails on the code. Run 1 (threshold 10,
window 24 hours, one hour after all submissions): the table holds the prior
entry wZ; the source is wZ then wA. wZ matches the prior entry and consumes
it, wA scans the exhausted iterator and alerts, and the table is replaced
with exactly [wA]. Run 2 on the unchanged source against that correctly
persisted table: wZ scans the fresh one-shot iterator [wA] without matching
and exhausts it, after which wA, whose (workflow_id, cost) pair was alerted
and logged in run 1, scans nothing and re-alerts: the second run output
contains wA. -/
theorem rerun_realerts_logged_pair :
    run_pipeline [wZ, wA] [wZ] 10 24 3600 = Except.ok ([wA], [wA]) ∧
      run_pipeline [wZ, wA] [wA] 10 24 3600 =
        Except.ok ([wZ, wA], [wZ, wA]) ∧
      wA ∈ [wZ, wA] := by
  refine ⟨?_, ?_, by simp⟩
  · norm_num [run_pipeline, collect_alerts_consuming, check_workflow_consuming,
      scan_duplicate, windowFilter, update_alert_log_table, DRY_RUN,
      wA, wZ, mkWorkflow]
  · norm_num [run_pipeline, collect_alerts_consuming, check_workflow_consuming,
      scan_duplicate, windowFilter, update_alert_log_table, DRY_RUN,
      wA, wZ, mkWorkflow]
    simp

/-- C5: the claim that the two configuration values are consumed as floats
fails on the code. main reads both from os.environ without conversion, so
check_workflow compares the float cost against a string threshold, which
raises TypeError for every record, every environment, every log and every
time: the pipeline can never perform the claimed numeric comparisons. -/
theorem env_config_comparison_raises (env : String → String) (w : Workflow)
    (log : List Workflow) (now : ℚ) :
    check_workflow_py w log (main_cost_limit_per_workflow env)
      (main_monitor_interval_hour env) now = Except.error () := rfl

/-- C6 counterexample: a record with a null submit_time and cost 5 against
threshold 1 makes check_workflow raise (TypeError on subtracting None from a
datetime) instead of returning false as the claim states. -/
theorem check_workflow_null_submit_counterexample :
    wNull.submit_time = none ∧
      check_workflow wNull [] 1 24 0 = Except.error () ∧
      check_workflow wNull [] 1 24 0 ≠ Except.ok false := by
  have h : check_workflow wNull [] 1 24 0 = Except.error () := by
    norm_num [check_workflow, wNull, mkWorkflow]
  exact ⟨rfl, h, by simp [h]⟩

/-- C6 amended: a record with a null submit_time returns false only when its
cost is below the threshold (the window test is never reached); when its cost
meets the threshold, the subtraction now_utc - submit_time at line 183 raises
TypeError instead of returning false. -/
theorem check_workflow_null_submit (w : Workflow) (log : List Workflow)
    (lim win now : ℚ) (hst : w.submit_time = none) :
    check_workflow w log lim win now =
      if lim ≤ w.cost then Except.error () else Except.ok false := by
  unfold check_workflow
  rw [hst]

/-- C6 witness: a null-submit-time record with cost 5 under threshold 10. -/
theorem check_workflow_null_submit_witness :
    check_workflow wNull [] 10 24 0 =
      if (10:ℚ) ≤ wNull.cost then Except.error () else Except.ok false :=
  check_workflow_null_submit wNull [] 10 24 0 rfl

/-- C7: the claim that a failed metadata fetch yields a record with null
start and end timestamps fails on the code. A non-success response makes
get_workflow_metadata return None, and get_utc_datetime_from_dict then
evaluates the membership test start in None, which raises TypeError and
aborts the enumeration; by contrast a successful fetch whose body lacks the
keys does produce the null pair. -/
theorem metadata_fetch_failure_raises :
    collector_workflow_times ⟨500, []⟩ = Except.error () ∧
      collector_workflow_times ⟨200, []⟩ = Except.ok (none, none) := ⟨rfl, rfl⟩

/-- C8: on a read failure, get_alert_log_table returns the empty collection
exactly when the error text contains Reason: 404 (the backing table does not
exist), and re-raises the failure otherwise. -/
theorem get_alert_log_table_read_failure (err : String) :
    (str_has_sub "Reason: 404" err = true →
      get_alert_log_table (Except.error err) = Except.ok []) ∧
    (str_has_sub "Reason: 404" err = false →
      get_alert_log_table (Except.error err) = Except.error err) := by
  constructor
  · intro h
    simp [get_alert_log_table, h]
  · intro h
    simp [get_alert_log_table, h]

/-- C8 witness: a missing-table error is swallowed into an empty collection,
and an unrelated error is re-raised. -/
theorem get_alert_log_table_read_failure_witness :
    get_alert_log_table (Except.error "GBQ Reason: 404 Not found") =
        Except.ok [] ∧
      get_alert_log_table (Except.error "GBQ Reason: 403 Forbidden") =
        Except.error "GBQ Reason: 403 Forbidden" :=
  ⟨(get_alert_log_table_read_failure "GBQ Reason: 404 Not found").1 (by decide),
    (get_alert_log_table_read_failure "GBQ Reason: 403 Forbidden").2 (by decide)⟩

/-- C9: in every run of the committed code, the Notifier finishes before the
Logger and never raises, whatever the delivery status: the stage output is
the send_alert events followed by the update_alert_log_table events, and the
resulting table content does not depend on the delivery status. A non-200
delivery status is handled inside send_email by printing, not by raising, so
a failed delivery neither leaves the new alerts unlogged nor blocks the log
write. -/
theorem notifier_then_logger_ordering (alerts table : List Workflow)
    (sendStatus : Nat) :
    ∃ notifyEvents, send_alert alerts sendStatus = Except.ok notifyEvents ∧
      notifier_logger_stage alerts table sendStatus =
        Except.ok (notifyEvents ++ (update_alert_log_table alerts table).1,
          (update_alert_log_table alerts table).2) := by
  by_cases h : alerts = []
  · subst h
    exact ⟨[], rfl, rfl⟩
  · refine ⟨[Event.printedSubject (maxCost alerts),
      Event.printedWorkflows alerts,
      Event.printedMsg "SendGrid is not available."], ?_, ?_⟩
    · simp [send_alert, send_email, DRY_RUN, ON_GOOGLE_CLOUD_FUNCTION, h]
    · simp [notifier_logger_stage, send_alert, send_email, DRY_RUN,
        ON_GOOGLE_CLOUD_FUNCTION, h]

/-- C10: on an empty set of new alerts, the Notifier emits no event and the
Logger issues no write and leaves the table unchanged. -/
theorem empty_alert_set_noop (table : List Workflow) (sendStatus : Nat) :
    send_alert [] sendStatus = Except.ok [] ∧
      update_alert_log_table [] table = ([], table) := ⟨rfl, rfl⟩
